import Mathlib

/-!
Verification of the credential-pool and quota-rotation subsystem of the Relay
translation bot (src/core/gcp_pool_manager.py, src/core/bot_pool_manager.py,
src/core/usage_manager.py, and the two call sites of usage recording in
src/cogs/translation.py and src/cogs/hub_manager.py).

The Python code is shallowly embedded: each manager object becomes a structure
holding its in-memory fields together with the database blob it owns (the
`db.set_state` persistence target), and each method becomes a pure function on
that structure.  Python exceptions are modelled by the `PyExc` type; a method
that can raise returns an `Except PyExc` value or pairs its state with the
raised exception.  Wall-clock reads (`datetime.now`) are passed in as an
explicit current-month string parameter.
-/

/-- Python exceptions raised by the embedded code paths. -/
inductive PyExc where
  | valueError (msg : String)
  | runtimeError (msg : String)
  | attributeError (attr : String)
  | nameError (missing : String)
  | shutdownForBotRotation (oldIdx newIdx : Nat)
  | zeroDivisionError
deriving DecidableEq

/-- Python dict lookup `d.get(k)` for the string-keyed integer dicts used by the
usage state (dicts are modelled as association lists with unique keys). -/
def dictGet : List (String × Int) → String → Option Int
  | [], _ => none
  | (k', v) :: rest, k => if k' = k then some v else dictGet rest k

/-- Python dict assignment `d[k] = v`: overwrite the existing binding in place,
or append a new one. -/
def dictInsert : List (String × Int) → String → Int → List (String × Int)
  | [], k, v => [(k, v)]
  | (k', v') :: rest, k, v =>
      if k' = k then (k, v) :: rest else (k', v') :: dictInsert rest k v

/-- Python truthiness test `not x` for an optional string: true for `None` and
for the empty string (`if not self._active_project_id` in usage_manager.py:125). -/
def pyFalsy : Option String → Bool
  | none => true
  | some s => s.isEmpty

/-- State of `GoogleProjectPoolManager` (gcp_pool_manager.py).  `projectIds`,
`credentialSources` and `credsArePaths` are fixed at construction from the
environment; `activeProjectIndex` is the `active_project_index` entry of the
in-memory `pool_state` dict (absent = `none`); `dbIndex` is the same entry in
the persisted `gcp_pool_state` blob.  The hot-swapped translator client is not
observed by any claim and is not part of the embedded state. -/
structure GcpPoolManager where
  projectIds : List String
  credentialSources : List String
  credsArePaths : Bool
  activeProjectIndex : Option Nat
  dbIndex : Option Nat
  isInitialized : Bool
deriving DecidableEq

/-- Constructor of `GoogleProjectPoolManager` (gcp_pool_manager.py:24-51):
raises `ValueError` when the number of project ids differs from the number of
credential sources, otherwise starts with an empty `pool_state` dict. -/
def mkGcpPoolManager (projectIds credentialSources : List String)
    (credsArePaths : Bool) (dbIndex : Option Nat) : Except PyExc GcpPoolManager :=
  if projectIds.length ≠ credentialSources.length then
    .error (.valueError "The number of GOOGLE_PROJECT_IDS must match the number of credential sources (paths or vars).")
  else
    .ok { projectIds := projectIds, credentialSources := credentialSources,
          credsArePaths := credsArePaths, activeProjectIndex := none,
          dbIndex := dbIndex, isInitialized := false }

/-- Method `GoogleProjectPoolManager.initialize` (gcp_pool_manager.py:53-72):
returns untouched (not initialized) when the project list is empty; otherwise
loads `pool_state` from the database and, when the `active_project_index` key
is absent, sets it to 0 and persists. -/
def initGcpPool (m : GcpPoolManager) : GcpPoolManager :=
  if m.projectIds.isEmpty then m
  else
    match m.dbIndex with
    | some i => { m with activeProjectIndex := some i, isInitialized := true }
    | none => { m with activeProjectIndex := some 0, dbIndex := some 0,
                       isInitialized := true }

/-- Field `id` of `get_active_project_details` (gcp_pool_manager.py:74-81):
`self.project_ids[active_index]` with `active_index = pool_state.get("active_project_index", 0)`.
The Python indexing raises `IndexError` out of range; the invariant proved for
C9 keeps the index in range, and `List.getD` with a dummy default stands in. -/
def getActiveProjectId (m : GcpPoolManager) : String :=
  m.projectIds.getD (m.activeProjectIndex.getD 0) ""

/-- Method `GoogleProjectPoolManager.rotate_active_project`
(gcp_pool_manager.py:87-117).  The body runs under `self._rotation_lock`, so
concurrent callers execute it serially and each call is one atomic step.
Line-by-line: `current_index = self.pool_state.get("active_project_index", 0)`
is executed after the lock is acquired; the guard on line 97 compares
`current_index` against a fresh read of the very same entry, short-circuiting
when they differ; otherwise `next_index = (current_index + 1) % len(self.project_ids)`
(a `ZeroDivisionError` when the pool is empty) is stored and persisted, and the
new active project id is returned. -/
def rotateActiveProject (m : GcpPoolManager) : Except PyExc (GcpPoolManager × String) :=
  let current := m.activeProjectIndex.getD 0
  if current ≠ m.activeProjectIndex.getD 0 then
    .ok (m, getActiveProjectId m)
  else if m.projectIds.length = 0 then
    .error .zeroDivisionError
  else
    let next := (current + 1) % m.projectIds.length
    let m' := { m with activeProjectIndex := some next, dbIndex := some next }
    .ok (m', getActiveProjectId m')

/-- One serialized rotation step: the state reached by a `rotate_active_project`
call (unchanged when the call raises). -/
def applyRotate (m : GcpPoolManager) : GcpPoolManager :=
  match rotateActiveProject m with
  | .ok (m', _) => m'
  | .error _ => m

/-- The `usage_tracker` blob: `{ "month": ..., "usage_by_project": {...} }`
(usage_manager.py).  A dict that lacks the `month` key has `month = none`; a
missing `usage_by_project` key behaves exactly like an empty dict under
`get("usage_by_project", {})` and `setdefault("usage_by_project", {})`, so it
is collapsed to the empty list. -/
structure UsageState where
  month : Option String
  usageByProject : List (String × Int)
deriving DecidableEq

/-- State of `UsageManager` (usage_manager.py:24-39): the configuration
constants `safe_limit` and `rotation_threshold` (read once from the
environment), the in-memory `_usage_state`, `_active_project_id` and
`_current_month` fields, and the persisted `usage_tracker` blob
(`dbUsageState`, the target of `_save_state`).  The constructor leaves
`_usage_state = {}`, `_active_project_id = None` and `_current_month = ""`.
There is no `_local_usage` attribute. -/
structure UsageManager where
  safeLimit : Int
  rotationThreshold : Int
  usageState : UsageState
  activeProjectId : Option String
  currentMonth : String
  dbUsageState : Option UsageState
deriving DecidableEq

/-- Python `self._usage_state.get("usage_by_project", {}).get(p, 0)`, the
current-month counter of one project in a usage blob. -/
def charactersUsedState (st : UsageState) (p : String) : Int :=
  (dictGet st.usageByProject p).getD 0

/-- Property `characters_used` for a given account (usage_manager.py:41-46
reads it for the active project; the per-account form indexes the same dict). -/
def charactersUsed (u : UsageManager) (p : String) : Int :=
  charactersUsedState u.usageState p

/-- Property `total_characters_used` (usage_manager.py:48-51): the sum of the
`usage_by_project` values. -/
def totalCharactersUsed (u : UsageManager) : Int :=
  (u.usageState.usageByProject.map Prod.snd).sum

/-- Method `check_limit_exceeded` (usage_manager.py:111-119): returns `False`
outright when the stored `_current_month` differs from the wall-clock month,
otherwise compares the total usage plus the additional length against
`safe_limit`.  `nowMonth` is the `datetime.now` month string. -/
def checkLimitExceeded (u : UsageManager) (nowMonth : String) (textLength : Int) : Bool :=
  if u.currentMonth ≠ nowMonth then false
  else totalCharactersUsed u + textLength > u.safeLimit

/-- Method `reset_usage` (usage_manager.py:147-156): sets `_current_month` to
the wall-clock month, replaces the usage dict with a zero counter for every
pool project id, and persists. -/
def resetUsage (u : UsageManager) (g : GcpPoolManager) (nowMonth : String) : UsageManager :=
  let st : UsageState :=
    { month := some nowMonth,
      usageByProject := g.projectIds.map (fun p => (p, 0)) }
  { u with currentMonth := nowMonth, usageState := st, dbUsageState := some st }

/-- Method `_load_state` (usage_manager.py:92-105): reads the `usage_tracker`
blob (an absent blob behaves as the empty dict), takes `state.get("month", now_month)`
as `_current_month`, and either resets on month rollover or adopts the blob as
the in-memory state. -/
def loadState (u : UsageManager) (g : GcpPoolManager) (nowMonth : String) : UsageManager :=
  let state := u.dbUsageState.getD { month := none, usageByProject := [] }
  let m := state.month.getD nowMonth
  let u' := { u with currentMonth := m }
  if m ≠ nowMonth then resetUsage u' g nowMonth
  else { u' with usageState := state }

/-- Method `record_usage` (usage_manager.py:121-145): returns at once when the
active project id is unset; otherwise adds `characterCount` to the active
project counter, persists, and when the new counter reaches
`rotation_threshold` invokes `rotate_active_project` and adopts the returned id
as the new active project (an exception from the rotation is caught and logged
on lines 144-145, leaving the cached id unchanged). -/
def recordUsage (u : UsageManager) (g : GcpPoolManager) (characterCount : Int) :
    UsageManager × GcpPoolManager :=
  if pyFalsy u.activeProjectId then (u, g)
  else
    let a := u.activeProjectId.getD ""
    let currentUsage := charactersUsedState u.usageState a
    let newUsage := currentUsage + characterCount
    let st := { u.usageState with
                usageByProject := dictInsert u.usageState.usageByProject a newUsage }
    let u' := { u with usageState := st, dbUsageState := some st }
    if newUsage ≥ u.rotationThreshold then
      match rotateActiveProject g with
      | .ok (g', newId) => ({ u' with activeProjectId := some newId }, g')
      | .error _ => (u', g)
    else (u', g)

/-- A sequence of `record_usage` calls, folded left to right. -/
def recordFold (u : UsageManager) (g : GcpPoolManager) (cs : List Int) :
    UsageManager × GcpPoolManager :=
  cs.foldl (fun p c => recordUsage p.1 p.2 c) (u, g)

/-- Outcome of one monitoring query inside `sync_with_google`
(usage_manager.py:169-202): a successful `list_time_series` summed to a total,
a `NotFound` from the API, or any other failure. -/
inductive QueryResult where
  | ok (googleTotal : Int)
  | notFound
  | err
deriving DecidableEq

/-- Body of the per-project loop of `sync_with_google`
(usage_manager.py:169-202): on success the local counter is overwritten with
the provider total when they differ (drift); on `NotFound` it is overwritten
with 0 when nonzero; on any other exception the project is skipped.  Returns
the updated blob and whether this step detected drift. -/
def syncStep (st : UsageState) (p : String) (r : QueryResult) : UsageState × Bool :=
  match r with
  | .ok googleTotal =>
      let localTotal := charactersUsedState st p
      if googleTotal ≠ localTotal then
        ({ st with usageByProject := dictInsert st.usageByProject p googleTotal }, true)
      else (st, false)
  | .notFound =>
      if charactersUsedState st p ≠ 0 then
        ({ st with usageByProject := dictInsert st.usageByProject p 0 }, true)
      else (st, false)
  | .err => (st, false)

/-- The whole per-project loop of `sync_with_google`, over the listed
monitoring clients and their query outcomes. -/
def syncFold (st : UsageState) : List (String × QueryResult) → UsageState × Bool
  | [] => (st, false)
  | (p, r) :: rest =>
      let (st1, d1) := syncStep st p r
      let (st2, d2) := syncFold st1 rest
      (st2, d1 || d2)

/-- Method `sync_with_google` (usage_manager.py:158-208): reloads the state
(`_load_state`), runs the monitoring query for every project with a monitoring
client, corrects local drift in memory, and persists only when some drift was
detected. -/
def syncWithGoogle (u : UsageManager) (g : GcpPoolManager) (nowMonth : String)
    (results : List (String × QueryResult)) : UsageManager :=
  let u1 := loadState u g nowMonth
  let (st, drift) := syncFold u1.usageState results
  if drift then { u1 with usageState := st, dbUsageState := some st }
  else { u1 with usageState := st }

/-- State of `BotPoolManager` (bot_pool_manager.py:26-34): the token list from
`BOT_TOKENS`, the `active_token_index` entry of the in-memory `pool_state` dict
and of the persisted `bot_pool_state` blob, and the `is_initialized` flag. -/
structure BotPoolManager where
  tokens : List String
  activeTokenIndex : Option Nat
  dbTokenIndex : Option Nat
  isInitialized : Bool
deriving DecidableEq

/-- Method `BotPoolManager._rotate_to_next_bot` (bot_pool_manager.py:80-101):
advances and persists `active_token_index`, then evaluates
`self.usage_manager.record_usage(-self.usage_manager._local_usage)` (line 96).
`UsageManager` defines no attribute `_local_usage` (usage_manager.py:24-39
initializes `limit`, `safe_limit`, `rotation_threshold`, `monitoring_clients`,
`is_initialized`, `_usage_state`, `_active_project_id`, `_current_month`), so
that attribute read raises `AttributeError` before `record_usage` runs, and the
`raise ShutdownForBotRotation` on lines 99-101 is unreachable.  The method
therefore returns the advanced state paired with the exception it raises; the
usage manager and the gcp pool are never touched. -/
def rotateToNextBot (b : BotPoolManager) : BotPoolManager × PyExc :=
  if b.tokens.length = 0 then (b, .zeroDivisionError)
  else
    let current := b.activeTokenIndex.getD 0
    let next := (current + 1) % b.tokens.length
    let b' := { b with activeTokenIndex := some next, dbTokenIndex := some next }
    (b', .attributeError "_local_usage")

/-- Method `BotPoolManager.get_active_token` (bot_pool_manager.py:63-78):
raises `RuntimeError` when uninitialized; rotates (and so raises) when the
usage ledger reports the total pool limit exceeded; otherwise returns
`self.tokens[active_index]` (in range by the C9 invariant; `List.getD` with a
dummy default stands in for the Python indexing). -/
def getActiveToken (b : BotPoolManager) (u : UsageManager) (nowMonth : String) :
    BotPoolManager × Except PyExc String :=
  if ¬ b.isInitialized then
    (b, .error (.runtimeError "BotPoolManager is not initialized."))
  else if checkLimitExceeded u nowMonth 0 then
    let (b', e) := rotateToNextBot b
    (b', .error e)
  else (b, .ok (b.tokens.getD (b.activeTokenIndex.getD 0) ""))

/-- Outcome of process startup: either it halts with an uncaught exception, or
the bot comes online (with or without a working translation backend). -/
inductive StartupResult where
  | halted (e : PyExc)
  | online (translationReady : Bool)
deriving DecidableEq

/-- Startup sequence relevant to pool configuration, following
bot_runner.py:103-137 and bot_runner.py:50-100.
1. `RelayBot.__init__` constructs `GoogleProjectPoolManager`, whose constructor
   raises `ValueError` on a project-id / credential-source count mismatch
   (gcp_pool_manager.py:45-46) — an uncaught startup crash.
2. `run_bot` calls `bot_pool_manager.initialize()` (bot_pool_manager.py:36-61):
   with an empty token list it logs CRITICAL and returns leaving
   `is_initialized` false, so the following `get_active_token()` raises
   `RuntimeError` (bot_pool_manager.py:68-69) — startup halts.  On a first run
   (no persisted `active_token_index`) the branch on lines 47-55 evaluates an
   f-string naming the undefined locals `current_index`/`next_index` and raises
   `NameError`.
3. With a token available, `get_active_token` does not rotate: the usage
   manager is not yet initialized there, its `_current_month` is the empty
   string (usage_manager.py:39), so `check_limit_exceeded` returns `False`
   (usage_manager.py:116-118).  `bot.start` then runs `setup_hook`;
   `GoogleProjectPoolManager.initialize` with an empty project list logs
   CRITICAL and returns without raising (gcp_pool_manager.py:55-57), and the
   bot comes online with the translation backend left unconfigured. -/
def startup (projectIds credentialSources tokens : List String)
    (botDbIndex : Option Nat) (gcpDbIndex : Option Nat) : StartupResult :=
  match mkGcpPoolManager projectIds credentialSources true gcpDbIndex with
  | .error e => .halted e
  | .ok _ =>
      if tokens.isEmpty then
        .halted (.runtimeError "BotPoolManager is not initialized.")
      else
        match botDbIndex with
        | none => .halted (.nameError "current_index")
        | some _ => .online (!projectIds.isEmpty)

/-- Result dict of `TextTranslator.translate_text` (translator.py:142,151) when
the call does not fail; a failed call returns `None`, modelled as the `none`
case at the call sites. -/
structure TranslationResult where
  translatedText : String
  detectedLanguageCode : String
deriving DecidableEq

/-- Characters recorded by `TranslationCog.perform_translation`
(translation.py:239-245) for one remote call: usage is recorded only when the
call returned a result whose `translated_text` is truthy, whose detected
language is not the `"error"` marker, and whose text differs from the
original. -/
def performTranslationRecords (original : String) (result : Option TranslationResult) : Nat :=
  match result with
  | none => 0
  | some r =>
      if ¬ r.translatedText.isEmpty ∧ r.detectedLanguageCode ≠ "error" ∧
          r.translatedText ≠ original then
        original.length
      else 0

/-- Characters recorded by `HubManager.handle_message_from_hub`
(hub_manager.py:670-689) for one inbound hub message without guild mention
processing (so `processed_text = text_to_translate`): each per-language call
result is stored as the translated text when the call returned a result and as
`processed_text` when it returned `None` (hub_manager.py:682) — a string in
both branches, hence a `some` value — and
`successful_translations` counts the stored values that are not `None`; when
that count is positive, `len(text_to_translate) * successful_translations`
characters are recorded. -/
def handleHubRecording (textToTranslate : String)
    (results : List (Option TranslationResult)) : Nat :=
  if textToTranslate.isEmpty then 0
  else
    let translations : List (Option String) :=
      results.map (fun r =>
        some (match r with
              | some d => d.translatedText
              | none => textToTranslate))
    let successfulTranslations := (translations.filter Option.isSome).length
    if successfulTranslations > 0 then
      textToTranslate.length * successfulTranslations
    else 0

/-- Shared example pool: two projects `A` and `B`, active index 0. -/
def gExample : GcpPoolManager :=
  { projectIds := ["A", "B"], credentialSources := ["cA", "cB"],
    credsArePaths := true, activeProjectIndex := some 0, dbIndex := some 0,
    isInitialized := true }

/-- Shared example ledger: rotation threshold 1000, month 2025-10, empty
counters, project `A` active. -/
def uExample : UsageManager :=
  { safeLimit := 980000, rotationThreshold := 1000,
    usageState := { month := some "2025-10", usageByProject := [] },
    activeProjectId := some "A", currentMonth := "2025-10", dbUsageState := none }

/-- Example ledger whose stored month (2025-09) is stale relative to a current
month of 2025-10. -/
def uStale : UsageManager :=
  { safeLimit := 490000, rotationThreshold := 490000,
    usageState := { month := some "2025-09", usageByProject := [("A", 480000)] },
    activeProjectId := some "A", currentMonth := "2025-09", dbUsageState := none }

/-- Example ledger with no active project id set (state before
`UsageManager.initialize` has run). -/
def uNoActive : UsageManager :=
  { safeLimit := 490000, rotationThreshold := 490000,
    usageState := { month := some "2025-10", usageByProject := [("A", 5)] },
    activeProjectId := none, currentMonth := "2025-10", dbUsageState := none }

/-- Example persisted blob for the reconciliation scenario: local counts A=500,
B=40 for the current month 2025-10. -/
def sSync : UsageState :=
  { month := some "2025-10", usageByProject := [("A", 500), ("B", 40)] }

/-- Example ledger about to reconcile, with `sSync` as its persisted blob. -/
def uSync : UsageManager :=
  { safeLimit := 490000, rotationThreshold := 490000,
    usageState := { month := none, usageByProject := [] },
    activeProjectId := some "A", currentMonth := "", dbUsageState := some sSync }

/-- Example ledger whose persisted blob carries the stale month 2025-09 with a
nonzero counter, for the month-rollover scenario. -/
def uRoll : UsageManager :=
  { safeLimit := 490000, rotationThreshold := 490000,
    usageState := { month := none, usageByProject := [] },
    activeProjectId := some "A", currentMonth := "",
    dbUsageState := some { month := some "2025-09", usageByProject := [("A", 500)] } }

theorem dictGet_dictInsert_self (d : List (String × Int)) (k : String) (v : Int) :
    dictGet (dictInsert d k v) k = some v := by
  induction d with
  | nil => simp [dictGet, dictInsert]
  | cons hd tl ih =>
      obtain ⟨k', v'⟩ := hd
      by_cases h : k' = k <;> simp [dictGet, dictInsert, h, ih]

theorem dictGet_dictInsert_other (d : List (String × Int)) (k q : String) (v : Int)
    (h : q ≠ k) : dictGet (dictInsert d k v) q = dictGet d q := by
  have hkq : ¬ k = q := fun h' => h h'.symm
  induction d with
  | nil => simp [dictGet, dictInsert, hkq]
  | cons hd tl ih =>
      obtain ⟨k', v'⟩ := hd
      by_cases hk : k' = k
      · subst hk
        simp [dictGet, dictInsert, hkq]
      · by_cases hq : k' = q <;> simp [dictGet, dictInsert, hk, hq, ih, h]

theorem dictGet_map_zero (ids : List String) (a : String) :
    (dictGet (ids.map fun p => (p, 0)) a).getD 0 = 0 := by
  induction ids with
  | nil => simp [dictGet]
  | cons hd tl ih => by_cases h : hd = a <;> simp [dictGet, h, ih]

theorem pyFalsy_some_ne (a : String) (hne : a ≠ "") : pyFalsy (some a) = false := by
  have h : a.isEmpty = false := by
    rw [Bool.eq_false_iff]
    intro h
    exact hne ((String.isEmpty_iff a).mp h)
  simp [pyFalsy, h]

theorem recordUsage_config (u : UsageManager) (g : GcpPoolManager) (c : Int) :
    (recordUsage u g c).1.rotationThreshold = u.rotationThreshold ∧
    (recordUsage u g c).1.safeLimit = u.safeLimit ∧
    (recordUsage u g c).1.currentMonth = u.currentMonth := by
  unfold recordUsage
  split
  · exact ⟨rfl, rfl, rfl⟩
  · dsimp only
    split
    · split <;> exact ⟨rfl, rfl, rfl⟩
    · exact ⟨rfl, rfl, rfl⟩

theorem recordUsage_active (u : UsageManager) (g : GcpPoolManager) (a : String) (c : Int)
    (ha : u.activeProjectId = some a) (hne : a ≠ "") :
    charactersUsed (recordUsage u g c).1 a = charactersUsed u a + c ∧
    (∀ b, b ≠ a → charactersUsed (recordUsage u g c).1 b = charactersUsed u b) ∧
    (recordUsage u g c).1.dbUsageState = some (recordUsage u g c).1.usageState ∧
    (charactersUsed u a + c < u.rotationThreshold →
      (recordUsage u g c).2 = g ∧ (recordUsage u g c).1.activeProjectId = some a) ∧
    (charactersUsed u a + c ≥ u.rotationThreshold →
      ∀ g' pid, rotateActiveProject g = .ok (g', pid) →
        (recordUsage u g c).2 = g' ∧ (recordUsage u g c).1.activeProjectId = some pid) := by
  have hfal := pyFalsy_some_ne a hne
  by_cases hthr : charactersUsed u a + c ≥ u.rotationThreshold
  · have hthr' : u.rotationThreshold ≤ (dictGet u.usageState.usageByProject a).getD 0 + c := by
      simpa [charactersUsed, charactersUsedState, ge_iff_le] using hthr
    rcases hrot : rotateActiveProject g with e | ⟨g', pid⟩
    · refine ⟨?_, fun b hb => ?_, ?_, fun hlt => absurd hthr (not_le.mpr hlt),
        fun _ g'' pid'' h => ?_⟩
      · simp [recordUsage, charactersUsed, charactersUsedState, hfal, ha, hthr', hrot,
          dictGet_dictInsert_self]
      · simp [recordUsage, charactersUsed, charactersUsedState, hfal, ha, hthr', hrot,
          dictGet_dictInsert_other _ _ _ _ hb]
      · simp [recordUsage, charactersUsed, charactersUsedState, hfal, ha, hthr', hrot]
      · simp [hrot] at h
    · refine ⟨?_, fun b hb => ?_, ?_, fun hlt => absurd hthr (not_le.mpr hlt),
        fun _ g'' pid'' h => ?_⟩
      · simp [recordUsage, charactersUsed, charactersUsedState, hfal, ha, hthr', hrot,
          dictGet_dictInsert_self]
      · simp [recordUsage, charactersUsed, charactersUsedState, hfal, ha, hthr', hrot,
          dictGet_dictInsert_other _ _ _ _ hb]
      · simp [recordUsage, charactersUsed, charactersUsedState, hfal, ha, hthr', hrot]
      · simp only [hrot, Except.ok.injEq, Prod.mk.injEq] at h
        obtain ⟨rfl, rfl⟩ := h
        simp [recordUsage, charactersUsed, charactersUsedState, hfal, ha, hthr', hrot]
  · have hthr' : ¬ u.rotationThreshold ≤ (dictGet u.usageState.usageByProject a).getD 0 + c := by
      simpa [charactersUsed, charactersUsedState, ge_iff_le] using hthr
    refine ⟨?_, fun b hb => ?_, ?_, fun _ => ?_, fun hge => absurd hge hthr⟩
    · simp [recordUsage, charactersUsed, charactersUsedState, hfal, ha, hthr',
        dictGet_dictInsert_self]
    · simp [recordUsage, charactersUsed, charactersUsedState, hfal, ha, hthr',
        dictGet_dictInsert_other _ _ _ _ hb]
    · simp [recordUsage, charactersUsed, charactersUsedState, hfal, ha, hthr']
    · simp [recordUsage, charactersUsed, charactersUsedState, hfal, ha, hthr']

theorem recordFold_sum (cs : List Int) : ∀ (u : UsageManager) (g : GcpPoolManager) (a : String),
    u.activeProjectId = some a → a ≠ "" →
    (∀ i, i < cs.length → charactersUsed u a + ((cs.take (i + 1)).sum) < u.rotationThreshold) →
    charactersUsed (recordFold u g cs).1 a = charactersUsed u a + cs.sum := by
  induction cs with
  | nil =>
      intro u g a ha hne hs
      simp [recordFold]
  | cons c rest ih =>
      intro u g a ha hne hs
      have h0 : charactersUsed u a + c < u.rotationThreshold := by
        have h := hs 0 (by simp)
        simpa using h
      have hstep := recordUsage_active u g a c ha hne
      obtain ⟨hg, hact⟩ := hstep.2.2.2.1 h0
      have hval : charactersUsed (recordUsage u g c).1 a = charactersUsed u a + c := hstep.1
      have hcfg := recordUsage_config u g c
      have hfold : recordFold u g (c :: rest) =
          recordFold (recordUsage u g c).1 (recordUsage u g c).2 rest := by
        simp [recordFold, List.foldl_cons]
      have hs' : ∀ i, i < rest.length →
          charactersUsed (recordUsage u g c).1 a + ((rest.take (i + 1)).sum) <
            (recordUsage u g c).1.rotationThreshold := by
        intro i hi
        have h := hs (i + 1) (by simpa using hi)
        rw [hval, hcfg.1]
        simp only [List.take_succ_cons, List.sum_cons] at h
        omega
      have := ih (recordUsage u g c).1 (recordUsage u g c).2 a hact hne hs'
      rw [hfold, this, hval]
      simp only [List.sum_cons]
      omega

theorem syncStep_self (st : UsageState) (p : String) (r : QueryResult) :
    charactersUsedState (syncStep st p r).1 p =
      (match r with
       | QueryResult.ok n => n
       | QueryResult.notFound => 0
       | QueryResult.err => charactersUsedState st p) := by
  cases r with
  | ok n =>
      by_cases h : n = (dictGet st.usageByProject p).getD 0
      · simp [syncStep, h, charactersUsedState]
      · simp [syncStep, charactersUsedState, h, dictGet_dictInsert_self]
  | notFound =>
      by_cases h : (dictGet st.usageByProject p).getD 0 = 0
      · simp [syncStep, charactersUsedState, h]
      · simp [syncStep, charactersUsedState, h, dictGet_dictInsert_self]
  | err => rfl

theorem syncStep_other (st : UsageState) (p : String) (r : QueryResult) (q : String)
    (h : q ≠ p) : charactersUsedState (syncStep st p r).1 q = charactersUsedState st q := by
  cases r with
  | ok n =>
      by_cases hc : n = (dictGet st.usageByProject p).getD 0 <;>
        simp [syncStep, charactersUsedState, hc, dictGet_dictInsert_other _ _ _ _ h]
  | notFound =>
      by_cases hc : (dictGet st.usageByProject p).getD 0 = 0 <;>
        simp [syncStep, charactersUsedState, hc, dictGet_dictInsert_other _ _ _ _ h]
  | err => rfl

theorem syncFold_fst (st : UsageState) (p : String) (r : QueryResult)
    (rest : List (String × QueryResult)) :
    (syncFold st ((p, r) :: rest)).1 = (syncFold (syncStep st p r).1 rest).1 := by
  simp only [syncFold]

theorem syncFold_notMem (rs : List (String × QueryResult)) : ∀ (st : UsageState) (p : String),
    p ∉ rs.map Prod.fst →
    charactersUsedState (syncFold st rs).1 p = charactersUsedState st p := by
  induction rs with
  | nil => intro st p _; rfl
  | cons hd tl ih =>
      obtain ⟨q, r⟩ := hd
      intro st p hp
      simp only [List.map_cons, List.mem_cons, not_or] at hp
      rw [syncFold_fst, ih _ p (by simpa using hp.2), syncStep_other _ _ _ _ hp.1]

theorem syncFold_mem (rs : List (String × QueryResult)) :
    ∀ (st : UsageState) (p : String) (r : QueryResult),
    (rs.map Prod.fst).Nodup → (p, r) ∈ rs →
    charactersUsedState (syncFold st rs).1 p =
      (match r with
       | QueryResult.ok n => n
       | QueryResult.notFound => 0
       | QueryResult.err => charactersUsedState st p) := by
  induction rs with
  | nil => intro st p r _ hmem; simp at hmem
  | cons hd tl ih =>
      obtain ⟨q, r'⟩ := hd
      intro st p r hnd hmem
      simp only [List.map_cons, List.nodup_cons] at hnd
      rcases List.mem_cons.mp hmem with heq | hmem'
      · obtain ⟨rfl, rfl⟩ := Prod.mk.injEq .. ▸ heq
        rw [syncFold_fst]
        rw [syncFold_notMem tl _ p hnd.1, syncStep_self]
      · have hpq : p ≠ q := by
          intro hpq
          subst hpq
          exact hnd.1 (List.mem_map.mpr ⟨(p, r), hmem', rfl⟩)
        rw [syncFold_fst]
        rw [ih _ p r hnd.2 hmem', syncStep_other _ _ _ _ hpq]

theorem loadState_same_month (u : UsageManager) (g : GcpPoolManager) (s : UsageState)
    (nowMonth : String) (hdb : u.dbUsageState = some s) (hm : s.month = some nowMonth) :
    loadState u g nowMonth = { u with currentMonth := nowMonth, usageState := s } := by
  simp [loadState, hdb, hm]

theorem syncWithGoogle_usageState (u : UsageManager) (g : GcpPoolManager) (nowMonth : String)
    (results : List (String × QueryResult)) :
    (syncWithGoogle u g nowMonth results).usageState =
      (syncFold (loadState u g nowMonth).usageState results).1 := by
  unfold syncWithGoogle
  rcases h : syncFold (loadState u g nowMonth).usageState results with ⟨st, drift⟩
  cases drift <;> simp [h]

theorem gcpRotate_ok (m : GcpPoolManager) (h : 0 < m.projectIds.length) :
    rotateActiveProject m =
      .ok ({ m with
              activeProjectIndex := some ((m.activeProjectIndex.getD 0 + 1) % m.projectIds.length),
              dbIndex := some ((m.activeProjectIndex.getD 0 + 1) % m.projectIds.length) },
           m.projectIds.getD ((m.activeProjectIndex.getD 0 + 1) % m.projectIds.length) "") := by
  have hne : ¬ m.projectIds.length = 0 := Nat.pos_iff_ne_zero.mp h
  simp [rotateActiveProject, hne, getActiveProjectId]

theorem applyRotate_eq (m : GcpPoolManager) (h : 0 < m.projectIds.length) :
    applyRotate m =
      { m with
        activeProjectIndex := some ((m.activeProjectIndex.getD 0 + 1) % m.projectIds.length),
        dbIndex := some ((m.activeProjectIndex.getD 0 + 1) % m.projectIds.length) } := by
  simp [applyRotate, gcpRotate_ok m h]

/-- The active-index range invariant for the gcp pool manager. -/
def gcpInv (m : GcpPoolManager) : Prop :=
  m.activeProjectIndex.getD 0 < m.projectIds.length

/-- The active-index range invariant for the bot pool manager. -/
def botInv (b : BotPoolManager) : Prop :=
  b.activeTokenIndex.getD 0 < b.tokens.length

theorem gcpInv_applyRotate (m : GcpPoolManager) (h : gcpInv m) : gcpInv (applyRotate m) := by
  have hlen : 0 < m.projectIds.length := lt_of_le_of_lt (Nat.zero_le _) h
  rw [applyRotate_eq m hlen]
  simpa [gcpInv] using Nat.mod_lt _ hlen

theorem gcpInv_initGcpPool (m : GcpPoolManager) (hne : m.projectIds ≠ [])
    (hdb : ∀ j, m.dbIndex = some j → j < m.projectIds.length) :
    gcpInv (initGcpPool m) := by
  have hlen : 0 < m.projectIds.length := List.length_pos.mpr hne
  have hemp : m.projectIds.isEmpty = false := by
    simpa [List.isEmpty_iff] using hne
  cases hj : m.dbIndex with
  | none => simpa [initGcpPool, hemp, hj, gcpInv] using hlen
  | some j => simpa [initGcpPool, hemp, hj, gcpInv] using hdb j hj

/-- C1: the claim states that K serialized `rotate_active_project` calls for
one threshold-crossing event advance `active_project_index` by exactly one,
the later callers short-circuiting via a pre-lock-snapshot versus post-lock
comparison.  In the code the snapshot on gcp_pool_manager.py:93 is taken after
the lock is acquired and line 97 compares it against a fresh read of the same
dict entry, so the guard never fires: starting from index 0 in a pool of two
projects, a first rotation moves the index to 1 and a second back-to-back
rotation moves it again, wrapping to 0 instead of leaving it at (0+1) mod 2 = 1. -/
theorem relay_c1_double_rotation :
    (applyRotate (applyRotate
      { projectIds := ["p0", "p1"], credentialSources := ["c0", "c1"],
        credsArePaths := true, activeProjectIndex := some 0, dbIndex := some 0,
        isInitialized := true })).activeProjectIndex = some 0 ∧
    (applyRotate
      { projectIds := ["p0", "p1"], credentialSources := ["c0", "c1"],
        credsArePaths := true, activeProjectIndex := some 0, dbIndex := some 0,
        isInitialized := true }).activeProjectIndex = some 1 ∧
    (0 + 1) % 2 = 1 := by decide

/-- C2: the claim states that when `get_active_token` finds the total-pool
limit check true it advances and persists the index and raises the
distinguished `ShutdownForBotRotation` signal, with no other exception type
escaping.  The code does advance and persist (bot_pool_manager.py:85-92), but
then reads the nonexistent attribute `usage_manager._local_usage`
(bot_pool_manager.py:96), so an `AttributeError` escapes and the
`ShutdownForBotRotation` raise on lines 99-101 is never reached.  Concretely:
a two-token pool at index 0, with two projects at 245001 characters each
against a safe limit of 490000 in the current month. -/
theorem relay_c2_attribute_error :
    getActiveToken
        { tokens := ["t0", "t1"], activeTokenIndex := some 0, dbTokenIndex := some 0,
          isInitialized := true }
        { safeLimit := 490000, rotationThreshold := 490000,
          usageState := { month := some "2025-10",
                          usageByProject := [("p0", 245001), ("p1", 245001)] },
          activeProjectId := some "p0", currentMonth := "2025-10", dbUsageState := none }
        "2025-10" =
      ({ tokens := ["t0", "t1"], activeTokenIndex := some 1, dbTokenIndex := some 1,
         isInitialized := true },
       .error (.attributeError "_local_usage")) := by rfl

/-- C3 counterexample: the claim states that when the stored month differs from
the current month, `check_limit_exceeded(n)` behaves as if the total usage were
zero, returning `n > safe_limit`.  With a stale stored month, a total of 480000
and n = 490001 > safe_limit = 490000, the claim predicts `true`, but the code
returns `False` unconditionally on a month mismatch (usage_manager.py:117-118). -/
theorem relay_c3_counterexample :
    checkLimitExceeded uStale "2025-10" 490001 = false ∧
    uStale.currentMonth ≠ "2025-10" ∧
    (0 : Int) + 490001 > uStale.safeLimit := by decide

/-- C3 amended: `check_limit_exceeded(n)` returns true iff the stored month
equals the current wall-clock month and `total_characters_used() + n >
safe_limit`; when the stored month differs from the current month it returns
false for every n. -/
theorem relay_c3_check_limit (u : UsageManager) (nowMonth : String) (n : Int) :
    (u.currentMonth = nowMonth →
      (checkLimitExceeded u nowMonth n = true ↔ totalCharactersUsed u + n > u.safeLimit)) ∧
    (u.currentMonth ≠ nowMonth → checkLimitExceeded u nowMonth n = false) := by
  constructor
  · intro h
    simp [checkLimitExceeded, h]
  · intro h
    simp [checkLimitExceeded, h]

/-- C3 witness: with matching months, a total of 480000, safe limit 490000 and
n = 10001 the check reports true. -/
theorem relay_c3_witness :
    uStale.currentMonth = "2025-09" ∧ checkLimitExceeded uStale "2025-09" 10001 = true :=
  ⟨rfl, ((relay_c3_check_limit uStale "2025-09" 10001).1 rfl).mpr (by decide)⟩

/-- C4: the claim states that no code path records usage for a failed remote
translation call.  In `handle_message_from_hub` a failed call (result `None`)
stores the untranslated `processed_text` — a string, hence never `None` — so
the `successful_translations` count (hub_manager.py:687) still counts it and
`record_usage` is called with `len(text)` for a message whose single
translation call failed: 5 characters are recorded for "hello".  The
`perform_translation` path (translation.py:239-245) correctly records 0 for a
failed call. -/
theorem relay_c4_failed_call_recorded :
    handleHubRecording "hello" [none] = 5 ∧
    performTranslationRecords "hello" none = 0 := by decide

/-- C10: when no active project id is set, `record_usage` returns immediately
(usage_manager.py:125-127): the states are returned unchanged, every counter
and the total are unchanged, nothing is persisted and no rotation is
triggered. -/
theorem relay_c10_record_no_active (u : UsageManager) (g : GcpPoolManager) (c : Int)
    (h : u.activeProjectId = none) :
    recordUsage u g c = (u, g) ∧
    (∀ a, charactersUsed (recordUsage u g c).1 a = charactersUsed u a) ∧
    totalCharactersUsed (recordUsage u g c).1 = totalCharactersUsed u ∧
    (recordUsage u g c).1.dbUsageState = u.dbUsageState := by
  have heq : recordUsage u g c = (u, g) := by
    simp [recordUsage, h, pyFalsy]
  exact ⟨heq, fun a => by rw [heq], by rw [heq], by rw [heq]⟩

/-- C10 witness: the claim instantiated on a concrete uninitialized ledger. -/
theorem relay_c10_witness :
    recordUsage uNoActive gExample 42 = (uNoActive, gExample) :=
  (relay_c10_record_no_active uNoActive gExample 42 rfl).1

/-- C5: `record_usage(c)` increments exactly the active account counter by c
and persists the state; rotation is invoked iff the new per-account count
reaches `rotation_threshold`, in which case the active-account cache is updated
to the id returned by `rotate_active_project`; a sequence of recordings on one
account that stays below the threshold sums exactly; and the end-to-end
scenario holds: in a 2-account pool with threshold 1000, recording 600 then
500 on A rotates to B with A at 1100, and 200 more gives B = 200 with a total
of 1300. -/
theorem relay_c5_record_usage :
    (∀ (u : UsageManager) (g : GcpPoolManager) (a : String) (c : Int),
        u.activeProjectId = some a → a ≠ "" →
        charactersUsed (recordUsage u g c).1 a = charactersUsed u a + c ∧
        (∀ b, b ≠ a → charactersUsed (recordUsage u g c).1 b = charactersUsed u b) ∧
        (recordUsage u g c).1.dbUsageState = some (recordUsage u g c).1.usageState ∧
        (charactersUsed u a + c < u.rotationThreshold →
          (recordUsage u g c).2 = g ∧ (recordUsage u g c).1.activeProjectId = some a) ∧
        (charactersUsed u a + c ≥ u.rotationThreshold →
          ∀ g' pid, rotateActiveProject g = .ok (g', pid) →
            (recordUsage u g c).2 = g' ∧ (recordUsage u g c).1.activeProjectId = some pid)) ∧
    (∀ (u : UsageManager) (g : GcpPoolManager) (a : String) (cs : List Int),
        u.activeProjectId = some a → a ≠ "" →
        (∀ i, i < cs.length →
          charactersUsed u a + ((cs.take (i + 1)).sum) < u.rotationThreshold) →
        charactersUsed (recordFold u g cs).1 a = charactersUsed u a + cs.sum) ∧
    (charactersUsed (recordFold uExample gExample [600]).1 "A" = 600 ∧
     (recordFold uExample gExample [600]).1.activeProjectId = some "A" ∧
     charactersUsed (recordFold uExample gExample [600, 500]).1 "A" = 1100 ∧
     (recordFold uExample gExample [600, 500]).1.activeProjectId = some "B" ∧
     charactersUsed (recordFold uExample gExample [600, 500, 200]).1 "B" = 200 ∧
     charactersUsed (recordFold uExample gExample [600, 500, 200]).1 "A" = 1100 ∧
     totalCharactersUsed (recordFold uExample gExample [600, 500, 200]).1 = 1300) := by
  refine ⟨fun u g a c ha hne => recordUsage_active u g a c ha hne,
          fun u g a cs ha hne hs => recordFold_sum cs u g a ha hne hs,
          ?_⟩
  decide

/-- C5 witness: the single-step part of the claim instantiated on the example
ledger, discharging the active-account hypotheses at `A`. -/
theorem relay_c5_witness :
    uExample.activeProjectId = some "A" ∧
    charactersUsed (recordUsage uExample gExample 600).1 "A" =
      charactersUsed uExample "A" + 600 :=
  ⟨rfl, (relay_c5_record_usage.1 uExample gExample "A" 600 rfl (by decide)).1⟩

/-- C6: after `sync_with_google`, with the stored month current (so the initial
reload does not reset), every account whose monitoring query succeeded holds
the provider-reported count, every account whose query raised `NotFound` holds
0, and every account whose query failed otherwise keeps its stored counter. -/
theorem relay_c6_reconcile (u : UsageManager) (g : GcpPoolManager) (s : UsageState)
    (nowMonth : String) (results : List (String × QueryResult))
    (hdb : u.dbUsageState = some s) (hm : s.month = some nowMonth)
    (hnd : (results.map Prod.fst).Nodup) :
    (∀ p n, (p, QueryResult.ok n) ∈ results →
        charactersUsed (syncWithGoogle u g nowMonth results) p = n) ∧
    (∀ p, (p, QueryResult.notFound) ∈ results →
        charactersUsed (syncWithGoogle u g nowMonth results) p = 0) ∧
    (∀ p, (p, QueryResult.err) ∈ results →
        charactersUsed (syncWithGoogle u g nowMonth results) p = charactersUsedState s p) := by
  have hload := loadState_same_month u g s nowMonth hdb hm
  have hus : (syncWithGoogle u g nowMonth results).usageState = (syncFold s results).1 := by
    rw [syncWithGoogle_usageState, hload]
  refine ⟨fun p n hmem => ?_, fun p hmem => ?_, fun p hmem => ?_⟩ <;>
    · rw [charactersUsed, hus]
      have h := syncFold_mem results s p _ hnd hmem
      simpa using h

/-- C6 witness: local counts A=500, B=40 with the provider reporting 750 for A
and `NotFound` for B become 750 and 0. -/
theorem relay_c6_witness :
    charactersUsed (syncWithGoogle uSync gExample "2025-10"
        [("A", QueryResult.ok 750), ("B", QueryResult.notFound)]) "A" = 750 ∧
    charactersUsed (syncWithGoogle uSync gExample "2025-10"
        [("A", QueryResult.ok 750), ("B", QueryResult.notFound)]) "B" = 0 :=
  ⟨(relay_c6_reconcile uSync gExample sSync "2025-10" _ rfl rfl (by decide)).1 "A" 750
      (by decide),
   (relay_c6_reconcile uSync gExample sSync "2025-10" _ rfl rfl (by decide)).2.1 "B"
      (by decide)⟩

/-- C7: when the stored month differs from the current wall-clock month, the
first `_load_state` zeroes every per-account counter and stamps the current
month; an immediately repeated `_load_state` is a no-op, and `reset_usage` is
idempotent. -/
theorem relay_c7_month_rollover (u : UsageManager) (g : GcpPoolManager) (s : UsageState)
    (m1 m2 : String) (hdb : u.dbUsageState = some s) (hm : s.month = some m1)
    (hne : m1 ≠ m2) :
    (∀ a, charactersUsed (loadState u g m2) a = 0) ∧
    (loadState u g m2).currentMonth = m2 ∧
    (loadState u g m2).usageState.month = some m2 ∧
    loadState (loadState u g m2) g m2 = loadState u g m2 ∧
    resetUsage (resetUsage u g m2) g m2 = resetUsage u g m2 := by
  refine ⟨fun a => ?_, ?_, ?_, ?_, ?_⟩ <;>
    simp [loadState, resetUsage, hdb, hm, hne, charactersUsed, charactersUsedState,
      dictGet_map_zero]

/-- C7 witness: a stored blob for month 2025-09 with A=500, loaded in month
2025-10, yields a zero counter for A and the new month stamp. -/
theorem relay_c7_witness :
    charactersUsed (loadState uRoll gExample "2025-10") "A" = 0 ∧
    (loadState uRoll gExample "2025-10").currentMonth = "2025-10" :=
  ⟨(relay_c7_month_rollover uRoll gExample _ "2025-09" "2025-10" rfl rfl (by decide)).1 "A",
   (relay_c7_month_rollover uRoll gExample _ "2025-09" "2025-10" rfl rfl (by decide)).2.1⟩

/-- C8 counterexample: the claim states that startup halts whenever a pool list
is empty.  With an empty project-id list (matching empty credential list), a
nonempty token list and persisted bot state, startup does not halt: the gcp
manager logs CRITICAL and returns (gcp_pool_manager.py:55-57) and the process
comes online with translation disabled. -/
theorem relay_c8_counterexample :
    startup [] [] ["tok"] (some 0) (some 0) = .online false := by decide

/-- C8 amended: startup halts on a mismatched project-id / credential-source
count (a `ValueError` from the constructor, gcp_pool_manager.py:45-46) and on
an empty identity (token) list (a `RuntimeError` when the first token is
requested, bot_pool_manager.py:68-69) — in neither case a distinguished
configuration-error type; an empty account list with a matching empty
credential list does not halt: startup proceeds to operation with the
translation backend disabled. -/
theorem relay_c8_startup (ids srcs toks : List String) (bdb gdb : Option Nat) :
    (ids.length ≠ srcs.length →
      startup ids srcs toks bdb gdb =
        .halted (.valueError "The number of GOOGLE_PROJECT_IDS must match the number of credential sources (paths or vars).")) ∧
    (ids.length = srcs.length → toks = [] →
      startup ids srcs toks bdb gdb =
        .halted (.runtimeError "BotPoolManager is not initialized.")) ∧
    (∀ k, ids = [] → srcs = [] → toks ≠ [] → bdb = some k →
      startup ids srcs toks bdb gdb = .online false) := by
  refine ⟨fun h => ?_, fun h1 h2 => ?_, fun k h1 h2 h3 h4 => ?_⟩
  · simp [startup, mkGcpPoolManager, h]
  · simp [startup, mkGcpPoolManager, h1, h2]
  · subst h1
    subst h2
    subst h4
    have hemp : toks.isEmpty = false := by simpa [List.isEmpty_iff] using h3
    simp [startup, mkGcpPoolManager, hemp]

/-- C8 witness: a mismatched configuration (one project id, no credential
source) halts startup with the constructor `ValueError`. -/
theorem relay_c8_witness :
    startup ["A"] [] ["tok"] (some 0) (some 0) =
      .halted (.valueError "The number of GOOGLE_PROJECT_IDS must match the number of credential sources (paths or vars).") :=
  (relay_c8_startup ["A"] [] ["tok"] (some 0) (some 0)).1 (by decide)

/-- C9: initialization defaults the active index to 0 when no persisted state
exists; every rotation moves the index to (current + 1) mod N; and assuming
the persisted index respects the pool bound, the range invariant
`active_index < N` holds after initialization followed by any number of
rotations, for the gcp pool, and is preserved by the bot-pool rotation. -/
theorem relay_c9_index_invariant :
    (∀ m : GcpPoolManager, m.projectIds ≠ [] → m.dbIndex = none →
        (initGcpPool m).activeProjectIndex = some 0) ∧
    (∀ m : GcpPoolManager, 0 < m.projectIds.length →
        (applyRotate m).activeProjectIndex =
          some ((m.activeProjectIndex.getD 0 + 1) % m.projectIds.length)) ∧
    (∀ (m : GcpPoolManager) (k : Nat), m.projectIds ≠ [] →
        (∀ j, m.dbIndex = some j → j < m.projectIds.length) →
        gcpInv (applyRotate^[k] (initGcpPool m))) ∧
    (∀ b : BotPoolManager, botInv b → botInv (rotateToNextBot b).1) := by
  refine ⟨fun m hne hdb => ?_, fun m h => ?_, fun m k hne hdb => ?_, fun b hb => ?_⟩
  · have hemp : m.projectIds.isEmpty = false := by simpa [List.isEmpty_iff] using hne
    simp [initGcpPool, hemp, hdb]
  · rw [applyRotate_eq m h]
  · induction k with
    | zero => exact gcpInv_initGcpPool m hne hdb
    | succ n ih =>
        rw [Function.iterate_succ_apply']
        exact gcpInv_applyRotate _ ih
  · have hlen : 0 < b.tokens.length := lt_of_le_of_lt (Nat.zero_le _) hb
    have hz : ¬ b.tokens.length = 0 := Nat.pos_iff_ne_zero.mp hlen
    simpa [rotateToNextBot, hz, botInv] using Nat.mod_lt _ hlen

/-- C9 witness: the range invariant holds on the example pool after
initialization and three rotations. -/
theorem relay_c9_witness : gcpInv (applyRotate^[3] (initGcpPool gExample)) := by
  have h := relay_c9_index_invariant.2.2.1 gExample 3 (by decide)
    (by intro j hj; simp [gExample] at hj ⊢; omega)
  exact h
